import Mathlib

/-
Verification of the heap-traversal acceptor framework of
include/hermes/VM/SlotAcceptor.h and of the experiment-flag constants of
include/hermes/VM/VMExperiments.h, as a shallow embedding.

Modelling conventions:
  * Every C++ acceptor interface becomes a Lean structure over an abstract
    acceptor-state type `σ`; each pure-virtual method becomes a field.
    A method taking a slot by mutable reference (for example
    `accept(void *&ptr)`) is modelled as a function that takes the current
    slot contents and returns the new acceptor state together with the
    possibly rewritten slot contents; methods taking their argument by
    value (the two SymbolID overloads) return only the new state.
  * C++ overloads are all spelled `accept`; Lean fields cannot share a
    name, so each overload carries a suffix naming its parameter type
    (acceptRaw for `accept(void *&)`, acceptPinned for
    `accept(PinnedHermesValue &)`, and so on).
  * A default-implemented virtual method becomes a structure field with a
    default value equal to the translation of the C++ default body, so an
    acceptor built without mentioning that field is exactly an acceptor
    that does not override it.
  * Slot payloads (addresses, symbol ids, HermesValue bit patterns) are
    opaque to this header, so they are modelled as `Nat`s wrapped in one
    structure per C++ slot type.
  * The `Section` enum expands entries of "hermes/VM/RootSections.def",
    which is not part of the sources here; the acceptor structures are
    therefore parameterised by an arbitrary section type `Sec`, and the
    enum itself is modelled abstractly below (see `Section`).
-/

namespace hermes
namespace vm

/-- Model of a raw root pointer slot value (`void *`): an address. -/
abbrev RawPtr := Nat

/-- Model of `const char *name`: a nullable name, `none` standing for
`nullptr`. -/
abbrev CName := Option String

/-- Model of a `PinnedHermesValue` slot value (a root-resident tagged
value), its bit pattern collapsed to a `Nat`. -/
structure PinnedHermesValue where
  raw : Nat
deriving DecidableEq, Repr

/-- Model of a `RootSymbolID` value (root-resident identifier, passed by
value in the C++ interface). -/
structure RootSymbolID where
  id : Nat
deriving DecidableEq, Repr

/-- Model of a `GCPointerBase` slot value (heap-resident managed pointer
field). -/
structure GCPointerBase where
  ptr : Nat
deriving DecidableEq, Repr

/-- Model of a `GCHermesValue` slot value (heap-resident tagged value);
the tag records whether the value currently holds a reference, the
payload the rest of the bit pattern. -/
structure GCHermesValue where
  tag : Nat
  payload : Nat
deriving DecidableEq, Repr

/-- Model of a `GCSymbolID` value (heap-resident identifier, passed by
value in the C++ interface). -/
structure GCSymbolID where
  id : Nat
deriving DecidableEq, Repr

/-- Model of a `WeakRefBase` slot value. -/
structure WeakRefBase where
  raw : Nat
deriving DecidableEq, Repr

/-- Model of a `WeakRootBase` slot value. -/
structure WeakRootBase where
  raw : Nat
deriving DecidableEq, Repr

/-- Model of a typed root pointer slot (`T *` for a JSObject subtype `T`):
the same address payload as `RawPtr`, tagged with the pointee type.
`reinterpret_cast<void *&>` forgets the tag and exposes the address. -/
structure TypedPtr (T : Type) where
  addr : Nat

/-- Modelled from the spec: the snapshot-writer handle (`HeapSnapshot &`)
is declared but not defined in the sources here; the spec treats the
snapshot format as out of scope, so the handle is opaque. -/
structure HeapSnapshot where
  raw : Nat

/-- `SlotAcceptor`: the three mandatory overloads for heap-internal
reference kinds — `accept(GCPointerBase &)`, `accept(GCHermesValue &)`,
`accept(GCSymbolID)`. -/
structure SlotAcceptor (σ : Type) where
  acceptGCPtr : GCPointerBase → σ → σ × GCPointerBase
  acceptGCHV : GCHermesValue → σ → σ × GCHermesValue
  acceptGCSym : GCSymbolID → σ → σ

/-- `WeakRefAcceptor`: the single mandatory `accept(WeakRefBase &)`. -/
structure WeakRefAcceptor (σ : Type) where
  acceptWeakRef : WeakRefBase → σ → σ × WeakRefBase

/-- The C++ default body of `beginRootSection` is empty: the state is
returned unchanged. -/
def defaultBeginRootSection {Sec σ : Type} (_sec : Sec) (s : σ) : σ := s

/-- The C++ default body of `endRootSection` is empty: the state is
returned unchanged. -/
def defaultEndRootSection {σ : Type} (s : σ) : σ := s

/-- `RootSectionAcceptor`: optional section bracketing, both virtuals
default-implemented with empty bodies. -/
structure RootSectionAcceptor (Sec σ : Type) where
  beginRootSection : Sec → σ → σ := defaultBeginRootSection
  endRootSection : σ → σ := defaultEndRootSection

/-- The `RootSectionAcceptor` that overrides nothing: both methods keep
their default (empty-body) implementations. -/
def defaultRootSectionAcceptor (Sec σ : Type) : RootSectionAcceptor Sec σ := {}

/-- `RootAcceptor`: the three mandatory overloads for root-resident
reference kinds — `accept(void *&)`, `accept(PinnedHermesValue &)`,
`accept(RootSymbolID)` — on top of the section bracketing. -/
structure RootAcceptor (Sec σ : Type) extends RootSectionAcceptor Sec σ where
  acceptRaw : RawPtr → σ → σ × RawPtr
  acceptPinned : PinnedHermesValue → σ → σ × PinnedHermesValue
  acceptRootSym : RootSymbolID → σ → σ

/-- `RootAcceptor::acceptPtr`: routes a typed root pointer slot through
the untyped `accept(void *&)` overload via `reinterpret_cast<void *&>`;
the reinterpreted slot aliases the typed one, so the raw overload's
write-back lands in the typed slot. -/
def RootAcceptor.acceptPtr {Sec σ : Type} (A : RootAcceptor Sec σ) {T : Type}
    (p : TypedPtr T) (s : σ) : σ × TypedPtr T :=
  let r := A.acceptRaw p.addr s
  (r.1, ⟨r.2⟩)

/-- `RootAndSlotAcceptor`: pure interface composition of `RootAcceptor`
and `SlotAcceptor` (both `accept` families re-exposed, no new
behaviour). -/
structure RootAndSlotAcceptor (Sec σ : Type) extends
    RootAcceptor Sec σ, SlotAcceptor σ

/-- The C++ default body of `provideSnapshot` is empty: the state is
returned unchanged and the callback is invoked on no snapshot at all (the
second component lists the snapshots the callback was invoked on). -/
def defaultProvideSnapshot {σ : Type} (_func : HeapSnapshot → HeapSnapshot)
    (s : σ) : σ × List HeapSnapshot := (s, [])

/-- `RootAndSlotAcceptorWithNames`: the six named accept overloads are
the pure virtuals a concrete acceptor implements; the unnamed overloads
of the parents are `override final` redirects with a null name and are
therefore not overridable fields but the fixed functions packaged in
`RootAndSlotAcceptorWithNames.toRootAndSlotAcceptor` below.
`provideSnapshot` is default-implemented with an empty body. -/
structure RootAndSlotAcceptorWithNames (Sec σ : Type) extends
    RootSectionAcceptor Sec σ where
  acceptRawNamed : RawPtr → CName → σ → σ × RawPtr
  acceptPinnedNamed : PinnedHermesValue → CName → σ → σ × PinnedHermesValue
  acceptRootSymNamed : RootSymbolID → CName → σ → σ
  acceptGCPtrNamed : GCPointerBase → CName → σ → σ × GCPointerBase
  acceptGCHVNamed : GCHermesValue → CName → σ → σ × GCHermesValue
  acceptGCSymNamed : GCSymbolID → CName → σ → σ
  provideSnapshot : (HeapSnapshot → HeapSnapshot) → σ → σ × List HeapSnapshot :=
    defaultProvideSnapshot

/-- The unnamed `accept` surface of a `RootAndSlotAcceptorWithNames`:
each unnamed overload is sealed (`override final`) and does nothing but
redirect to the corresponding named overload with `nullptr`; the section
bracketing is inherited unchanged. No conforming acceptor can override
these redirects, so this is THE unnamed behaviour of every conforming
acceptor. -/
def RootAndSlotAcceptorWithNames.toRootAndSlotAcceptor {Sec σ : Type}
    (A : RootAndSlotAcceptorWithNames Sec σ) : RootAndSlotAcceptor Sec σ where
  beginRootSection := A.beginRootSection
  endRootSection := A.endRootSection
  acceptRaw p s := A.acceptRawNamed p none s
  acceptPinned hv s := A.acceptPinnedNamed hv none s
  acceptRootSym sym s := A.acceptRootSymNamed sym none s
  acceptGCPtr p s := A.acceptGCPtrNamed p none s
  acceptGCHV hv s := A.acceptGCHVNamed hv none s
  acceptGCSym sym s := A.acceptGCSymNamed sym none s

/-- `RootAndSlotAcceptorWithNames::acceptPtr` (the named variant): routes
a typed root pointer slot through the named `accept(void *&, name)`
overload via `reinterpret_cast<void *&>`. -/
def RootAndSlotAcceptorWithNames.acceptPtrNamed {Sec σ : Type}
    (A : RootAndSlotAcceptorWithNames Sec σ) {T : Type} (p : TypedPtr T)
    (name : CName) (s : σ) : σ × TypedPtr T :=
  let r := A.acceptRawNamed p.addr name s
  (r.1, ⟨r.2⟩)

/-- `WeakRootAcceptor`: extends `WeakRefAcceptor` and
`RootSectionAcceptor`; its own single operation is `acceptWeak`, named
distinctly from the `accept` family. -/
structure WeakRootAcceptor (Sec σ : Type) extends
    WeakRefAcceptor σ, RootSectionAcceptor Sec σ where
  acceptWeak : WeakRootBase → σ → σ × WeakRootBase

/-- `DroppingAcceptor<Acceptor>`: wraps an unnamed `RootAndSlotAcceptor`
and implements every named overload by discarding the name and calling
the wrapped acceptor's unnamed overload. It overrides nothing else:
`beginRootSection`, `endRootSection` and `provideSnapshot` keep the
inherited default (empty-body) implementations. -/
def DroppingAcceptor {Sec σ : Type} (acceptor : RootAndSlotAcceptor Sec σ) :
    RootAndSlotAcceptorWithNames Sec σ where
  acceptRawNamed p _ s := acceptor.acceptRaw p s
  acceptPinnedNamed hv _ s := acceptor.acceptPinned hv s
  acceptRootSymNamed sym _ s := acceptor.acceptRootSym sym s
  acceptGCPtrNamed p _ s := acceptor.acceptGCPtr p s
  acceptGCHVNamed hv _ s := acceptor.acceptGCHV hv s
  acceptGCSymNamed sym _ s := acceptor.acceptGCSym sym s

/-- One unnamed accept call, tagged with its reference kind and carrying
the slot value handed to the acceptor. -/
inductive UnnamedCall where
  | raw (p : RawPtr)
  | pinned (hv : PinnedHermesValue)
  | rootSym (sym : RootSymbolID)
  | gcPtr (p : GCPointerBase)
  | gcHV (hv : GCHermesValue)
  | gcSym (sym : GCSymbolID)
deriving DecidableEq, Repr

/-- One named accept call: an unnamed call plus the (nullable) name. -/
inductive NamedCall where
  | raw (p : RawPtr) (name : CName)
  | pinned (hv : PinnedHermesValue) (name : CName)
  | rootSym (sym : RootSymbolID) (name : CName)
  | gcPtr (p : GCPointerBase) (name : CName)
  | gcHV (hv : GCHermesValue) (name : CName)
  | gcSym (sym : GCSymbolID) (name : CName)
deriving DecidableEq, Repr

/-- Discard the name of a named call, keeping the kind and slot value. -/
def NamedCall.dropName : NamedCall → UnnamedCall
  | .raw p _ => .raw p
  | .pinned hv _ => .pinned hv
  | .rootSym sym _ => .rootSym sym
  | .gcPtr p _ => .gcPtr p
  | .gcHV hv _ => .gcHV hv
  | .gcSym sym _ => .gcSym sym

/-- Issue one unnamed accept call on an unnamed acceptor; the driver owns
the slot, so the written-back slot value is not threaded into later
calls. -/
def RootAndSlotAcceptor.stepUnnamed {Sec σ : Type}
    (A : RootAndSlotAcceptor Sec σ) : UnnamedCall → σ → σ
  | .raw p, s => (A.acceptRaw p s).1
  | .pinned hv, s => (A.acceptPinned hv s).1
  | .rootSym sym, s => A.acceptRootSym sym s
  | .gcPtr p, s => (A.acceptGCPtr p s).1
  | .gcHV hv, s => (A.acceptGCHV hv s).1
  | .gcSym sym, s => A.acceptGCSym sym s

/-- Issue a sequence of unnamed accept calls on an unnamed acceptor, in
order. -/
def RootAndSlotAcceptor.driveUnnamed {Sec σ : Type}
    (A : RootAndSlotAcceptor Sec σ) : List UnnamedCall → σ → σ
  | [], s => s
  | c :: cs, s => A.driveUnnamed cs (A.stepUnnamed c s)

/-- Issue one named accept call on a name-aware acceptor. -/
def RootAndSlotAcceptorWithNames.stepNamed {Sec σ : Type}
    (A : RootAndSlotAcceptorWithNames Sec σ) : NamedCall → σ → σ
  | .raw p name, s => (A.acceptRawNamed p name s).1
  | .pinned hv name, s => (A.acceptPinnedNamed hv name s).1
  | .rootSym sym name, s => A.acceptRootSymNamed sym name s
  | .gcPtr p name, s => (A.acceptGCPtrNamed p name s).1
  | .gcHV hv name, s => (A.acceptGCHVNamed hv name s).1
  | .gcSym sym name, s => A.acceptGCSymNamed sym name s

/-- Issue a sequence of named accept calls on a name-aware acceptor, in
order. -/
def RootAndSlotAcceptorWithNames.driveNamed {Sec σ : Type}
    (A : RootAndSlotAcceptorWithNames Sec σ) : List NamedCall → σ → σ
  | [], s => s
  | c :: cs, s => A.driveNamed cs (A.stepNamed c s)

/-- A recording unnamed acceptor: its state is the list of unnamed calls
it has received, each accept appends its own call and leaves the slot
unchanged. -/
def recordingUnnamed : RootAndSlotAcceptor Unit (List UnnamedCall) where
  acceptRaw p s := (s ++ [.raw p], p)
  acceptPinned hv s := (s ++ [.pinned hv], hv)
  acceptRootSym sym s := s ++ [.rootSym sym]
  acceptGCPtr p s := (s ++ [.gcPtr p], p)
  acceptGCHV hv s := (s ++ [.gcHV hv], hv)
  acceptGCSym sym s := s ++ [.gcSym sym]

/-- An observable event of an acceptor that also overrides the optional
section bracketing: an accept call, a `beginRootSection`, or an
`endRootSection`. -/
inductive SectionEvent (Sec : Type) where
  | call (c : UnnamedCall)
  | beginSec (sec : Sec)
  | endSec

/-- A recording unnamed acceptor that also overrides `beginRootSection`
and `endRootSection` to record them as events. -/
def recordingWithSections (Sec : Type) :
    RootAndSlotAcceptor Sec (List (SectionEvent Sec)) where
  beginRootSection sec s := s ++ [.beginSec sec]
  endRootSection s := s ++ [.endSec]
  acceptRaw p s := (s ++ [.call (.raw p)], p)
  acceptPinned hv s := (s ++ [.call (.pinned hv)], hv)
  acceptRootSym sym s := s ++ [.call (.rootSym sym)]
  acceptGCPtr p s := (s ++ [.call (.gcPtr p)], p)
  acceptGCHV hv s := (s ++ [.call (.gcHV hv)], hv)
  acceptGCSym sym s := s ++ [.call (.gcSym sym)]

/-- The heap-internal calls a `SlotAcceptor` can receive, one constructor
per overload. -/
inductive SlotCall where
  | gcPtr (p : GCPointerBase)
  | gcHV (hv : GCHermesValue)
  | gcSym (sym : GCSymbolID)
deriving DecidableEq, Repr

/-- A recording `SlotAcceptor`: its state is the list of calls received. -/
def recordingSlotAcceptor : SlotAcceptor (List SlotCall) where
  acceptGCPtr p s := (s ++ [.gcPtr p], p)
  acceptGCHV hv s := (s ++ [.gcHV hv], hv)
  acceptGCSym sym s := s ++ [.gcSym sym]

/-- The spec's mock heap object: one managed pointer field, one tagged
value field (whose tag may or may not denote a reference), one identifier
field — in this declaration order. -/
structure MockObject where
  childRef : GCPointerBase
  val : GCHermesValue
  key : GCSymbolID

/-- Modelled from the spec: the per-object-type field enumerator
(`SlotVisitor`) that drives a `SlotAcceptor` over an object's markable
fields is not part of the sources here; per the spec's scenario each
field is offered exactly once, in field-declaration order, through the
overload matching its reference kind. -/
def driveMock {σ : Type} (A : SlotAcceptor σ) (o : MockObject) (s : σ) : σ :=
  let s1 := (A.acceptGCPtr o.childRef s).1
  let s2 := (A.acceptGCHV o.val s1).1
  A.acceptGCSym o.key s2

/-- C++ method names occurring in the strong-slot and weak-root
visitation surfaces. -/
inductive MethodName where
  | accept
  | acceptWeak
deriving DecidableEq, Repr

/-- Parameter types of the accept overloads relevant to strong/weak
dispatch. -/
inductive ParamType where
  | gcPointerBase
  | gcHermesValue
  | gcSymbolID
  | weakRefBase
  | weakRootBase
deriving DecidableEq, Repr

/-- The overload surface of `SlotAcceptor`: three overloads, all named
`accept`. -/
def slotAcceptorOverloads : List (MethodName × ParamType) :=
  [(.accept, .gcPointerBase), (.accept, .gcHermesValue), (.accept, .gcSymbolID)]

/-- The overload surface of `WeakRootAcceptor`: the inherited
`accept(WeakRefBase &)` and its own `acceptWeak(WeakRootBase &)`. -/
def weakRootAcceptorOverloads : List (MethodName × ParamType) :=
  [(.accept, .weakRefBase), (.acceptWeak, .weakRootBase)]

/-- The merged overload surface of a concrete type inheriting both
`SlotAcceptor` and `WeakRootAcceptor`. -/
def combinedOverloads : List (MethodName × ParamType) :=
  slotAcceptorOverloads ++ weakRootAcceptorOverloads

/-- A concrete type implementing both the strong-slot `accept` family and
the weak-root visitation. -/
structure SlotAndWeakAcceptor (Sec σ : Type) extends
    SlotAcceptor σ, WeakRootAcceptor Sec σ

/-- Visiting a root-held weak reference: the call site invokes
`acceptWeak` (the single operation taking a `WeakRootBase &`). -/
def visitWeakRoot {Sec σ : Type} (A : SlotAndWeakAcceptor Sec σ)
    (w : WeakRootBase) (s : σ) : σ × WeakRootBase :=
  A.acceptWeak w s

/-- Events observable on a combined strong/weak recording acceptor. -/
inductive StrongOrWeakEvent where
  | strongGCPtr (p : GCPointerBase)
  | strongGCHV (hv : GCHermesValue)
  | strongGCSym (sym : GCSymbolID)
  | weakRef (wr : WeakRefBase)
  | weakRoot (w : WeakRootBase)
deriving DecidableEq, Repr

/-- Whether an event went through one of `SlotAcceptor`'s strong-path
accept overloads. -/
def StrongOrWeakEvent.isStrongAccept : StrongOrWeakEvent → Bool
  | .strongGCPtr _ => true
  | .strongGCHV _ => true
  | .strongGCSym _ => true
  | .weakRef _ => false
  | .weakRoot _ => false

/-- A recording combined acceptor: every method appends an event naming
the method it came through. -/
def recordingSlotAndWeak : SlotAndWeakAcceptor Unit (List StrongOrWeakEvent) where
  acceptGCPtr p s := (s ++ [.strongGCPtr p], p)
  acceptGCHV hv s := (s ++ [.strongGCHV hv], hv)
  acceptGCSym sym s := s ++ [.strongGCSym sym]
  acceptWeakRef wr s := (s ++ [.weakRef wr], wr)
  acceptWeak w s := (s ++ [.weakRoot w], w)

/-- The classes declared in SlotAcceptor.h, as bare names, for the
`std::is_base_of` capability check of `DroppingAcceptor`. -/
inductive CppClass where
  | slotAcceptor
  | weakRefAcceptor
  | rootSectionAcceptor
  | rootAcceptor
  | rootAndSlotAcceptor
  | rootAndSlotAcceptorWithNames
  | weakRootAcceptor
  | droppingAcceptor
deriving DecidableEq, Fintype, Repr

/-- Direct base classes, exactly as declared in the header. -/
def directBases : CppClass → List CppClass
  | .slotAcceptor => []
  | .weakRefAcceptor => []
  | .rootSectionAcceptor => []
  | .rootAcceptor => [.rootSectionAcceptor]
  | .rootAndSlotAcceptor => [.rootAcceptor, .slotAcceptor]
  | .rootAndSlotAcceptorWithNames => [.rootAndSlotAcceptor]
  | .weakRootAcceptor => [.weakRefAcceptor, .rootSectionAcceptor]
  | .droppingAcceptor => [.rootAndSlotAcceptorWithNames]

/-- Fueled base-class reachability; `std::is_base_of<b, d>` counts `d`
itself as a base of `d`. -/
def isBaseOfFuel : Nat → CppClass → CppClass → Bool
  | 0, _, _ => false
  | fuel + 1, b, d => b == d || (directBases d).any (fun p => isBaseOfFuel fuel b p)

/-- `std::is_base_of<b, d>::value`; the fuel 8 exceeds the depth of every
inheritance chain in the header, so reachability is computed exactly. -/
def isBaseOf (b d : CppClass) : Bool := isBaseOfFuel 8 b d

/-- The `static_assert` guarding `DroppingAcceptor<Acceptor>`:
instantiation compiles exactly when the condition holds. -/
def droppingAcceptorInstantiableOver (c : CppClass) : Bool :=
  isBaseOf .rootAndSlotAcceptor c

/-- Modelled from the spec: the `ROOT_SECTION(name)` entries expanded
from "hermes/VM/RootSections.def" are not among the sources here; the
spec describes the enum as the closed list of root-section categories
followed by a `NumSections` count and an `InvalidSection` sentinel. The
unknown categories are modelled as `n` abstract members, so the enum has
ordinals `0, ..., n - 1` (the real sections), `n` (`NumSections`) and
`n + 1` (`InvalidSection`). -/
abbrev Section (n : Nat) := Fin (n + 2)

/-- The i-th real root-section category. -/
def realSection (n : Nat) (i : Fin n) : Section n :=
  ⟨i.val, by omega⟩

/-- `Section::NumSections`, placed right after the last real section. -/
def numSections (n : Nat) : Section n :=
  ⟨n, by omega⟩

/-- `Section::InvalidSection`, the sentinel placed last. -/
def invalidSection (n : Nat) : Section n :=
  ⟨n + 1, by omega⟩

namespace experiments

/-- `experiments::Default`. -/
def Default : Nat := 0

/-- `experiments::MAdviseSequential`. -/
def MAdviseSequential : Nat := 1 <<< 2

/-- `experiments::MAdviseRandom`. -/
def MAdviseRandom : Nat := 1 <<< 3

/-- `experiments::MAdviseStringsSequential`. -/
def MAdviseStringsSequential : Nat := 1 <<< 4

/-- `experiments::MAdviseStringsRandom`. -/
def MAdviseStringsRandom : Nat := 1 <<< 5

/-- `experiments::MAdviseStringsWillNeed`. -/
def MAdviseStringsWillNeed : Nat := 1 <<< 6

/-- `experiments::VerifyBytecodeChecksum`. -/
def VerifyBytecodeChecksum : Nat := 1 <<< 7

/-- `experiments::IgnoreMemoryWarnings`. -/
def IgnoreMemoryWarnings : Nat := 1 <<< 9

/-- `experiments::HadesCompaction`. -/
def HadesCompaction : Nat := 1 <<< 10

/-- The experiment flag constants other than `Default`, in declaration
order. -/
def nonDefaultExperiments : List Nat :=
  [MAdviseSequential, MAdviseRandom, MAdviseStringsSequential,
   MAdviseStringsRandom, MAdviseStringsWillNeed, VerifyBytecodeChecksum,
   IgnoreMemoryWarnings, HadesCompaction]

/-- `using VMExperimentFlags = uint32_t`: a 32-bit set of flags, modelled
as the naturals below `2 ^ 32`. -/
def VMExperimentFlags := Fin (2 ^ 32)

end experiments

/-- A single named call on a `DroppingAcceptor` has the same effect as
the corresponding name-stripped unnamed call on the wrapped acceptor. -/
lemma droppingAcceptor_stepNamed {Sec σ : Type} (A : RootAndSlotAcceptor Sec σ)
    (c : NamedCall) (s : σ) :
    (DroppingAcceptor A).stepNamed c s = A.stepUnnamed c.dropName s := by
  cases c <;> rfl

/-- Driving a `DroppingAcceptor` through any sequence of named calls has
the same effect on the shared state as driving the wrapped acceptor
directly through the name-stripped sequence. -/
lemma droppingAcceptor_driveNamed {Sec σ : Type} (A : RootAndSlotAcceptor Sec σ)
    (calls : List NamedCall) (s : σ) :
    (DroppingAcceptor A).driveNamed calls s =
      A.driveUnnamed (calls.map NamedCall.dropName) s := by
  induction calls generalizing s with
  | nil => rfl
  | cons c cs ih =>
      simp only [RootAndSlotAcceptorWithNames.driveNamed, List.map_cons,
        RootAndSlotAcceptor.driveUnnamed, droppingAcceptor_stepNamed]
      exact ih _

/-- The recording unnamed acceptor appends exactly the calls it is
driven through, in order. -/
lemma recordingUnnamed_driveUnnamed (calls : List UnnamedCall)
    (tr : List UnnamedCall) :
    recordingUnnamed.driveUnnamed calls tr = tr ++ calls := by
  induction calls generalizing tr with
  | nil => simp [RootAndSlotAcceptor.driveUnnamed]
  | cons c cs ih =>
      have hstep : recordingUnnamed.stepUnnamed c tr = tr ++ [c] := by
        cases c <;> rfl
      rw [RootAndSlotAcceptor.driveUnnamed, hstep, ih, List.append_assoc]
      rfl

/-- Claim C1: for every acceptor conforming to
`RootAndSlotAcceptorWithNames` and every slot argument of any of the six
reference kinds, the sealed (final) unnamed accept overload is
observationally identical to the corresponding named overload invoked
with a null name. -/
theorem sealed_unnamed_redirects_to_named_with_null (Sec σ : Type)
    (A : RootAndSlotAcceptorWithNames Sec σ) (p : RawPtr)
    (hv : PinnedHermesValue) (rsym : RootSymbolID) (gp : GCPointerBase)
    (ghv : GCHermesValue) (gsym : GCSymbolID) (s : σ) :
    A.toRootAndSlotAcceptor.acceptRaw p s = A.acceptRawNamed p none s ∧
    A.toRootAndSlotAcceptor.acceptPinned hv s = A.acceptPinnedNamed hv none s ∧
    A.toRootAndSlotAcceptor.acceptRootSym rsym s = A.acceptRootSymNamed rsym none s ∧
    A.toRootAndSlotAcceptor.acceptGCPtr gp s = A.acceptGCPtrNamed gp none s ∧
    A.toRootAndSlotAcceptor.acceptGCHV ghv s = A.acceptGCHVNamed ghv none s ∧
    A.toRootAndSlotAcceptor.acceptGCSym gsym s = A.acceptGCSymNamed gsym none s :=
  ⟨rfl, rfl, rfl, rfl, rfl, rfl⟩

/-- Claim C2: driving a `DroppingAcceptor` wrapping an unnamed acceptor
`A` through any sequence of named calls with arbitrary names has exactly
the effect of driving `A`'s unnamed overloads directly on the
name-stripped sequence; instantiated at the recording acceptor, the
sequence of unnamed calls received by the wrapped acceptor is exactly the
driven sequence with names discarded — same kinds, same slot values, same
order. -/
theorem droppingAcceptor_drive_eq_unnamed_drive (Sec σ : Type)
    (A : RootAndSlotAcceptor Sec σ) (calls : List NamedCall) (s : σ) :
    (DroppingAcceptor A).driveNamed calls s =
      A.driveUnnamed (calls.map NamedCall.dropName) s ∧
    (DroppingAcceptor recordingUnnamed).driveNamed calls [] =
      calls.map NamedCall.dropName := by
  refine ⟨droppingAcceptor_driveNamed A calls s, ?_⟩
  rw [droppingAcceptor_driveNamed, recordingUnnamed_driveUnnamed]
  simp

/-- Claim C3: for every pointee type `T`, `RootAcceptor::acceptPtr`
forwards the typed pointer slot through the single untyped
`accept(void *&)` overload on the reinterpreted slot — same resulting
acceptor state, and the typed slot receives exactly the raw overload's
write-back; likewise the named `acceptPtr` of
`RootAndSlotAcceptorWithNames` forwards through `accept(void *&, name)`.
No overload specific to `T` exists in either interface. -/
theorem acceptPtr_forwards_through_raw_accept (Sec σ T : Type)
    (A : RootAcceptor Sec σ) (B : RootAndSlotAcceptorWithNames Sec σ)
    (p : TypedPtr T) (name : CName) (s : σ) :
    (A.acceptPtr p s).1 = (A.acceptRaw p.addr s).1 ∧
    (A.acceptPtr p s).2.addr = (A.acceptRaw p.addr s).2 ∧
    (B.acceptPtrNamed p name s).1 = (B.acceptRawNamed p.addr name s).1 ∧
    (B.acceptPtrNamed p name s).2.addr = (B.acceptRawNamed p.addr name s).2 :=
  ⟨rfl, rfl, rfl, rfl⟩

/-- Claim C4: `DroppingAcceptor` is instantiable exactly over the classes
possessing the union capability set of `RootAcceptor` and `SlotAcceptor`
(equivalently, exactly the classes deriving from `RootAndSlotAcceptor`:
itself, `RootAndSlotAcceptorWithNames` and `DroppingAcceptor`); for every
other class of the header the `static_assert` rejects the instantiation
at compile time. -/
theorem droppingAcceptor_static_capability_check :
    ∀ c : CppClass,
      (droppingAcceptorInstantiableOver c = true ↔
        (isBaseOf .rootAcceptor c = true ∧ isBaseOf .slotAcceptor c = true)) ∧
      (droppingAcceptorInstantiableOver c = true ↔
        (c = .rootAndSlotAcceptor ∨ c = .rootAndSlotAcceptorWithNames ∨
          c = .droppingAcceptor)) := by
  decide

/-- Claim C5: the optional capabilities default to doing nothing — an
acceptor that overrides neither section method leaves its state unchanged
under `beginRootSection` (for every section) and `endRootSection`, and
the default `provideSnapshot` leaves the state unchanged and invokes the
callback on no snapshot at all. -/
theorem optional_capabilities_default_noop (Sec σ : Type) (sec : Sec) (s : σ)
    (f : HeapSnapshot → HeapSnapshot) :
    (defaultRootSectionAcceptor Sec σ).beginRootSection sec s = s ∧
    (defaultRootSectionAcceptor Sec σ).endRootSection s = s ∧
    defaultProvideSnapshot f s = (s, ([] : List HeapSnapshot)) ∧
    (defaultProvideSnapshot f s).2.length = 0 :=
  ⟨rfl, rfl, rfl, rfl⟩

/-- Claim C6: the `Section` enumeration is closed — every member is a
real section, `NumSections` or `InvalidSection` — with the two extras
placed after all real sections: `NumSections` has ordinal equal to the
number of real sections, and `InvalidSection` is distinct from every real
section and from `NumSections`. -/
theorem section_enum_closed_with_sentinels (n : Nat) :
    (numSections n).val = n ∧
    (invalidSection n).val = n + 1 ∧
    (∀ i : Fin n, (realSection n i).val = i.val) ∧
    (∀ i : Fin n, realSection n i ≠ numSections n) ∧
    (∀ i : Fin n, realSection n i ≠ invalidSection n) ∧
    invalidSection n ≠ numSections n ∧
    (∀ s : Section n,
      (∃ i : Fin n, s = realSection n i) ∨ s = numSections n ∨
        s = invalidSection n) := by
  refine ⟨rfl, rfl, fun i => rfl, fun i h => ?_, fun i h => ?_, fun h => ?_,
    fun s => ?_⟩
  · have hv := congrArg Fin.val h
    have hi := i.isLt
    simp only [realSection, numSections] at hv
    omega
  · have hv := congrArg Fin.val h
    have hi := i.isLt
    simp only [realSection, invalidSection] at hv
    omega
  · have hv := congrArg Fin.val h
    simp only [invalidSection, numSections] at hv
    omega
  · rcases s with ⟨v, hv⟩
    rcases Nat.lt_trichotomy v n with h | h | h
    · exact Or.inl ⟨⟨v, h⟩, rfl⟩
    · exact Or.inr (Or.inl (Fin.ext h))
    · refine Or.inr (Or.inr (Fin.ext ?_))
      show v = n + 1
      omega

/-- Claim C7: `SlotAcceptor` exposes exactly one mandatory overload per
heap-internal reference kind, and driving it over a mock object holding
one managed pointer field, one tagged-value field and one identifier
field yields exactly three calls, one through each overload, in
field-declaration order, whatever tag the tagged-value field currently
holds. -/
theorem slotAcceptor_three_calls_in_order (o : MockObject) :
    driveMock recordingSlotAcceptor o [] =
      [SlotCall.gcPtr o.childRef, SlotCall.gcHV o.val, SlotCall.gcSym o.key] ∧
    (driveMock recordingSlotAcceptor o []).length = 3 :=
  ⟨rfl, rfl⟩

/-- Claim C8: the weak-root visitation operation is named `acceptWeak`,
distinct from every `accept` overload — on the merged overload surface of
a type implementing both `SlotAcceptor` and `WeakRootAcceptor`, the only
overload taking a `WeakRootBase` is `acceptWeak` — and visiting a weak
root always goes through `acceptWeak`: the recording combined acceptor
observes exactly one `acceptWeak` event and no strong-path accept
event. -/
theorem weak_root_dispatches_through_acceptWeak (Sec σ : Type)
    (A : SlotAndWeakAcceptor Sec σ) (w : WeakRootBase) (s : σ) :
    combinedOverloads.filter (fun sig => sig.2 == ParamType.weakRootBase) =
      [(MethodName.acceptWeak, ParamType.weakRootBase)] ∧
    MethodName.acceptWeak ≠ MethodName.accept ∧
    visitWeakRoot A w s = A.acceptWeak w s ∧
    (visitWeakRoot recordingSlotAndWeak w []).1 =
      [StrongOrWeakEvent.weakRoot w] ∧
    (visitWeakRoot recordingSlotAndWeak w []).1.filter
      StrongOrWeakEvent.isStrongAccept = [] :=
  ⟨by decide, by decide, rfl, rfl, rfl⟩

/-- Claim C9: `DroppingAcceptor` forwards only the six named accept
overloads; `beginRootSection`, `endRootSection` and `provideSnapshot` on
the adapter are the inherited no-ops for every wrapped acceptor and are
never forwarded — even when the wrapped acceptor overrides section
bracketing to record events, driving the adapter records nothing, while
calling the wrapped acceptor directly does record. -/
theorem droppingAcceptor_drops_section_and_snapshot_events (Sec σ : Type)
    (A : RootAndSlotAcceptor Sec σ) (sec : Sec) (s : σ)
    (f : HeapSnapshot → HeapSnapshot) (tr : List (SectionEvent Sec)) :
    (DroppingAcceptor A).beginRootSection sec s = s ∧
    (DroppingAcceptor A).endRootSection s = s ∧
    (DroppingAcceptor A).provideSnapshot f s = (s, []) ∧
    (DroppingAcceptor (recordingWithSections Sec)).beginRootSection sec tr = tr ∧
    (DroppingAcceptor (recordingWithSections Sec)).endRootSection tr = tr ∧
    (DroppingAcceptor (recordingWithSections Sec)).provideSnapshot f tr =
      (tr, []) ∧
    (recordingWithSections Sec).beginRootSection sec tr =
      tr ++ [SectionEvent.beginSec sec] ∧
    (recordingWithSections Sec).endRootSection tr =
      tr ++ [SectionEvent.endSec] :=
  ⟨rfl, rfl, rfl, rfl, rfl, rfl, rfl, rfl⟩

/-- Claim C10: `Default` is zero and every other experiment flag constant
is a single-bit value below `2 ^ 32`, pairwise distinct and pairwise
disjoint as bitmasks, so a set of active experiments is representable as
the bitwise or of its members in a 32-bit `VMExperimentFlags` without
collision. -/
theorem experiment_flags_distinct_single_bits :
    experiments.Default = 0 ∧
    experiments.nonDefaultExperiments.all
      (fun c => decide (c ∈ (List.range 32).map (2 ^ ·))) = true ∧
    List.Pairwise (fun a b => a ≠ b ∧ a &&& b = 0)
      experiments.nonDefaultExperiments ∧
    experiments.nonDefaultExperiments.all (fun c => decide (c < 2 ^ 32)) = true :=
  ⟨rfl, by decide, by decide, by decide⟩

end vm
end hermes
